import Mathlib

/-!
Verification of the DailyYoutubeDigest processing pipeline.

The Python sources are shallowly embedded:

* JSON values (`json.load` results) become the inductive `JValue`;
  Python truthiness becomes `truthy`, Python `in` / `[]` on such values
  become `pyIn` / `pyIndex` (a raised `TypeError` / `KeyError` is the
  `Except.error` case).
* `src/utils/config.py` becomes `validate_config`, `load_config` and
  `default_config`; the two loaders (S3 / local file) are oracles
  (`Option JValue`, `none` when the loader returned `None`).
* `src/main.py` becomes `process_video` / `runVideos` / `runChannels` /
  `mainRun` over an oracle environment `PipeEnv`; observable side effects
  (summarization calls, sink publish attempts, processed-record writes)
  are logged in a `List Effect`.
* `src/services/openai_service.py` becomes `composePrompt`,
  `dispatchedPrompt`, `generate_summary` and `generate_tweet`; the chat
  completion is an oracle (`Except Unit String`, the error being any
  raised exception), and each dispatched completion call is counted.
* `src/services/youtube_service.py` becomes `get_video_transcript` over
  an abstract transcript API.
-/

/-- A JSON value, the result of `json.load` in the Python sources. -/
inductive JValue where
  | null : JValue
  | bool : Bool → JValue
  | num : Int → JValue
  | str : String → JValue
  | arr : List JValue → JValue
  | obj : List (String × JValue) → JValue

/-- Python truthiness of a JSON value (`if config:`). -/
def truthy : JValue → Bool
  | .null => false
  | .bool b => b
  | .num n => n != 0
  | .str s => s != ""
  | .arr xs => !xs.isEmpty
  | .obj fs => !fs.isEmpty

/-- Is `needle` a leading segment of `hay`? (helper for Python `in` on strings) -/
def leadsWith : List Char → List Char → Bool
  | [], _ => true
  | _ :: _, [] => false
  | a :: as, b :: bs => a == b && leadsWith as bs

/-- Does `needle` occur contiguously inside `hay`? -/
def hasSub : List Char → List Char → Bool
  | needle, [] => leadsWith needle []
  | needle, b :: bs => leadsWith needle (b :: bs) || hasSub needle bs

/-- Python `needle in hay` for strings. -/
def strIn (needle hay : String) : Bool := hasSub needle.data hay.data

/-- A Python dict produced from a JSON object. -/
abbrev PyDict := List (String × JValue)

/-- Python `d[k]` on a dict, as an `Option` (missing key = `KeyError`). -/
def dictIndex (d : PyDict) (k : String) : Option JValue :=
  (d.find? (fun p => p.1 == k)).map (fun p => p.2)

/-- Python `d.get(k, dflt)` on a dict. -/
def pyGet (d : PyDict) (k : String) (dflt : JValue) : JValue :=
  (dictIndex d k).getD dflt

/-- Python `key in v` on an arbitrary JSON value: key membership on dicts,
element membership on lists, substring test on strings; `TypeError` (the
`Except.error` case) on the remaining, non-iterable values. -/
def pyIn (key : String) : JValue → Except Unit Bool
  | .obj fs => .ok (fs.any (fun p => p.1 == key))
  | .arr xs => .ok (xs.any (fun x => match x with | .str s => s == key | _ => false))
  | .str s => .ok (strIn key s)
  | _ => .error ()

/-- Python `v[key]` with a string key on an arbitrary JSON value:
lookup on dicts (`KeyError` when absent), `TypeError` otherwise. -/
def pyIndex (v : JValue) (key : String) : Except Unit JValue :=
  match v with
  | .obj fs =>
    match dictIndex fs key with
    | some x => .ok x
    | none => .error ()
  | _ => .error ()

/-- The per-channel check inside `validate_config`'s loop: the entry is a
dict and has the `channel_id` and `name` keys. -/
def channelOk : JValue → Bool
  | .obj fs => fs.any (fun p => p.1 == "channel_id") && fs.any (fun p => p.1 == "name")
  | _ => false

/-- `validate_config` from `src/utils/config.py`: truthiness, required
top-level keys, non-empty channel list, per-channel required fields, and
the three required global settings.  `Except.error` is a raised exception
(the function indexes and iterates the untyped JSON value directly). -/
def validate_config (config : JValue) : Except Unit Bool :=
  if truthy config = false then .ok false
  else match pyIn "channels" config with
  | .error e => .error e
  | .ok false => .ok false
  | .ok true =>
    match pyIn "global_settings" config with
    | .error e => .error e
    | .ok false => .ok false
    | .ok true =>
      match pyIndex config "channels" with
      | .error e => .error e
      | .ok (.arr xs) =>
        if xs.isEmpty then .ok false
        else if !xs.all channelOk then .ok false
        else
          match pyIndex config "global_settings" with
          | .error e => .error e
          | .ok gs =>
            match pyIn "default_summary_style" gs with
            | .error e => .error e
            | .ok false => .ok false
            | .ok true =>
              match pyIn "default_summary_length" gs with
              | .error e => .error e
              | .ok false => .ok false
              | .ok true =>
                match pyIn "default_include_timestamps" gs with
                | .error e => .error e
                | .ok b => .ok b
      | .ok _ => .ok false

/-- The hardcoded default configuration returned by `load_config` when no
candidate validates. -/
def default_config : JValue :=
  .obj [
    ("channels", .arr [
      .obj [
        ("name", .str "Example Channel"),
        ("channel_id", .str "UC_x5XG1OV2P6uZZ5FSM9Ttw"),
        ("summary_style", .str "concise"),
        ("summary_length", .num 500),
        ("include_timestamps", .bool true),
        ("post_to_twitter", .bool false),
        ("post_to_blog", .bool false)]]),
    ("global_settings", .obj [
      ("default_summary_style", .str "concise"),
      ("default_summary_length", .num 500),
      ("default_include_timestamps", .bool true),
      ("max_videos_per_channel", .num 3),
      ("days_to_look_back", .num 1),
      ("openai_model", .str "gpt-4-turbo")])]

/-- `load_config` from `src/utils/config.py`.  `s3Result` / `fileResult`
are the values returned by `load_config_from_s3` / `load_config_from_file`
(`none` when the loader returned `None`: unreachable storage, missing
file, invalid JSON, or any other caught exception).  The local file is
consulted only when the S3 result is falsy (`if not config:`); the chosen
candidate is validated and the hardcoded default substituted on failure. -/
def load_config (s3Result fileResult : Option JValue) : Except Unit JValue :=
  let config : Option JValue :=
    match s3Result with
    | some v => if truthy v then some v else fileResult
    | none => fileResult
  match config with
  | some v =>
    if truthy v then
      match validate_config v with
      | .error e => .error e
      | .ok true => .ok v
      | .ok false => .ok default_config
    else .ok default_config
  | none => .ok default_config

/-- The first truthy candidate in the order remote, local. -/
def firstTruthyCandidate (s3Result fileResult : Option JValue) : Option JValue :=
  match s3Result with
  | some v =>
    if truthy v then some v
    else match fileResult with
      | some w => if truthy w then some w else none
      | none => none
  | none =>
    match fileResult with
    | some w => if truthy w then some w else none
    | none => none

/-- Modelled from the spec's words as amended: only the first truthy
candidate (remote before local) is ever validated; it is returned when it
validates and replaced by the built-in default otherwise — the chain does
not continue past a truthy candidate that fails validation. -/
def resolve_amended (s3Result fileResult : Option JValue) : Except Unit JValue :=
  match firstTruthyCandidate s3Result fileResult with
  | none => .ok default_config
  | some v =>
    match validate_config v with
    | .error e => .error e
    | .ok true => .ok v
    | .ok false => .ok default_config

/-- Number of entries under the `channels` key (a small observable used to
tell configurations apart). -/
def channelCount : JValue → Nat
  | .obj fs =>
    match dictIndex fs "channels" with
    | some (.arr xs) => xs.length
    | _ => 0
  | _ => 0

/-- The `channel_id` of the first channel entry, when it is a string. -/
def firstChannelId : JValue → Option String
  | .obj fs =>
    match dictIndex fs "channels" with
    | some (.arr (.obj cf :: _)) =>
      match dictIndex cf "channel_id" with
      | some (.str s) => some s
      | _ => none
    | _ => none
  | _ => none

/-- A remote configuration that parses as JSON and is truthy but fails
validation (its `global_settings` key is missing). -/
def badRemote : JValue :=
  .obj [("channels", .arr [.obj [("channel_id", .str "UCabc"), ("name", .str "A")]])]

/-- A valid local configuration with two channels. -/
def goodLocal : JValue :=
  .obj [
    ("channels", .arr [
      .obj [("channel_id", .str "UCone"), ("name", .str "One")],
      .obj [("channel_id", .str "UCtwo"), ("name", .str "Two")]]),
    ("global_settings", .obj [
      ("default_summary_style", .str "concise"),
      ("default_summary_length", .num 500),
      ("default_include_timestamps", .bool true)])]

/-- A configuration whose only channel has empty-string identifier and name. -/
def emptyIdConfig : JValue :=
  .obj [
    ("channels", .arr [
      .obj [("channel_id", .str ""), ("name", .str "")]]),
    ("global_settings", .obj [
      ("default_summary_style", .str "concise"),
      ("default_summary_length", .num 500),
      ("default_include_timestamps", .bool true)])]

/-- A discovered video as consumed by `main.py`
(`video["id"]["videoId"]`, `video["snippet"]["title"]`,
`video["snippet"]["channelTitle"]`). -/
structure Video where
  videoId : String
  title : String
  channelTitle : String

/-- One observable side effect of a pipeline run. -/
inductive Effect where
  | summarizeCall (transcript : String)
  | tweetAttempt (videoId : String) (ok : Bool)
  | blogNote (videoId : String)
  | markCall (videoId channelName summary : String) (ok : Bool)

def isSummarizeEffect : Effect → Bool
  | .summarizeCall _ => true
  | _ => false

def isTweetEffect : Effect → Bool
  | .tweetAttempt _ _ => true
  | _ => false

def isBlogEffect : Effect → Bool
  | .blogNote _ => true
  | _ => false

def isMarkEffect : Effect → Bool
  | .markCall _ _ _ _ => true
  | _ => false

def countSummarize (l : List Effect) : Nat := (l.filter isSummarizeEffect).length
def countTweet (l : List Effect) : Nat := (l.filter isTweetEffect).length
def countBlog (l : List Effect) : Nat := (l.filter isBlogEffect).length
def countMark (l : List Effect) : Nat := (l.filter isMarkEffect).length

/-- Oracle environment for the orchestrator in `src/main.py`: the results
of `get_video_transcript`, `generate_summary`, `post_to_twitter`,
`mark_video_as_processed` and `get_channel_videos` as functions of their
arguments, plus the (wall-clock derived) `published_after` instant. -/
structure PipeEnv where
  transcript : String → Option String
  summarize : String → JValue → JValue → JValue → String → String → Option String
  post_to_twitter : String → String → String → String → Bool
  mark_video_as_processed : String → String → String → Bool
  get_channel_videos : JValue → JValue → String → Option (List Video)
  published_after : String

/-- `process_video` from `src/main.py`.  Returns the function's result
(`Except.error` when a raised exception escapes, e.g. a `KeyError` on the
global settings) together with the list of side effects, in order.  A
falsy (`None` or empty) transcript or summary is terminal with no record
written; the Twitter outcome is only logged; the blog branch is a
placeholder; the `mark_video_as_processed` result is discarded. -/
def process_video (env : PipeEnv) (video : Video) (channel_config gs : PyDict) :
    Except Unit Bool × List Effect :=
  match env.transcript video.videoId with
  | none => (.ok false, [])
  | some transcript =>
    if transcript = "" then (.ok false, [])
    else
      match dictIndex gs "default_summary_style" with
      | none => (.error (), [])
      | some ds =>
        match dictIndex gs "default_summary_length" with
        | none => (.error (), [])
        | some dl =>
          match dictIndex gs "default_include_timestamps" with
          | none => (.error (), [])
          | some dt =>
            let summary_style := pyGet channel_config "summary_style" ds
            let summary_length := pyGet channel_config "summary_length" dl
            let include_timestamps := pyGet channel_config "include_timestamps" dt
            match env.summarize transcript summary_style summary_length include_timestamps
                video.title video.channelTitle with
            | none => (.ok false, [Effect.summarizeCall transcript])
            | some summary =>
              if summary = "" then (.ok false, [Effect.summarizeCall transcript])
              else
                let twitterEffects :=
                  if truthy (pyGet channel_config "post_to_twitter" (.bool false)) then
                    [Effect.tweetAttempt video.videoId
                      (env.post_to_twitter summary video.videoId video.title video.channelTitle)]
                  else []
                let blogEffects :=
                  if truthy (pyGet channel_config "post_to_blog" (.bool false)) then
                    [Effect.blogNote video.videoId]
                  else []
                (.ok true,
                  Effect.summarizeCall transcript ::
                    (twitterEffects ++ blogEffects ++
                      [Effect.markCall video.videoId video.channelTitle summary
                        (env.mark_video_as_processed video.videoId video.channelTitle summary)]))

/-- The inner loop of `main` over one channel's discovered videos: an
already-processed id is skipped before any per-item work. -/
def runVideos (env : PipeEnv) (channel_config gs : PyDict) (processed : List String) :
    List Video → Except Unit Unit × List Effect
  | [] => (.ok (), [])
  | v :: vs =>
    if processed.contains v.videoId then runVideos env channel_config gs processed vs
    else
      match process_video env v channel_config gs with
      | (.error e, effs) => (.error e, effs)
      | (.ok _, effs) =>
        match runVideos env channel_config gs processed vs with
        | (r, effs2) => (r, effs ++ effs2)

/-- The outer loop of `main` over the configured channels: indexing the
channel dict may raise (`KeyError`); a `None` or empty discovery result
skips the channel (`if not videos: continue`). -/
def runChannels (env : PipeEnv) (gs : PyDict) (processed : List String) :
    List PyDict → Except Unit Unit × List Effect
  | [] => (.ok (), [])
  | channel :: rest =>
    match dictIndex channel "channel_id" with
    | none => (.error (), [])
    | some channel_id =>
      match dictIndex channel "name" with
      | none => (.error (), [])
      | some _ =>
        match env.get_channel_videos channel_id
            (pyGet gs "max_videos_per_channel" (.num 3)) env.published_after with
        | none => runChannels env gs processed rest
        | some videos =>
          if videos.isEmpty then runChannels env gs processed rest
          else
            match runVideos env channel gs processed videos with
            | (.error e, effs) => (.error e, effs)
            | (.ok _, effs) =>
              match runChannels env gs processed rest with
              | (r, effs2) => (r, effs ++ effs2)

/-- One run of `main` from `src/main.py`, after configuration resolution:
`channels` and `gs` are `config["channels"]` / `config["global_settings"]`
and `processed` is the processed-id set read once up front. -/
def mainRun (env : PipeEnv) (channels : List PyDict) (gs : PyDict) (processed : List String) :
    Except Unit Unit × List Effect :=
  runChannels env gs processed channels

/-- Python string slicing `s[:n]` for `0 ≤ n`. -/
def strTake (s : String) (n : Nat) : String := String.mk (s.data.take n)

/-- The instruction prompt composed by `generate_summary` in
`src/services/openai_service.py` (`video_title` / `channel_name` are the
empty string when falsy). -/
def composePrompt (transcript style : String) (max_length : Int) (include_timestamps : Bool)
    (video_title channel_name : String) : String :=
  let timestamps_instruction :=
    if include_timestamps then "Include key timestamps for important points."
    else "Do not include timestamps."
  let context :=
    if video_title != "" && channel_name != "" then
      "The video is titled '" ++ video_title ++ "' from the channel '" ++ channel_name ++ "'. "
    else ""
  context ++ "Summarize the following YouTube video transcript in a " ++ style ++
    " style with a maximum of " ++ toString max_length ++ " words. " ++
    timestamps_instruction ++ "\n\nTRANSCRIPT:\n" ++ transcript

/-- The fixed character budget for the summarization prompt. -/
def max_prompt_length : Nat := 16000

/-- The explicit truncation marker appended when the prompt is cut. -/
def truncationMarker : String := "... [transcript truncated due to length]"

/-- The prompt actually dispatched by `generate_summary`: the composed
prompt, truncated to `max_prompt_length` characters with the truncation
marker appended when it exceeds that budget. -/
def dispatchedPrompt (transcript style : String) (max_length : Int) (include_timestamps : Bool)
    (video_title channel_name : String) : String :=
  let prompt := composePrompt transcript style max_length include_timestamps
    video_title channel_name
  if prompt.length > max_prompt_length then
    strTake prompt max_prompt_length ++ truncationMarker
  else prompt

/-- `generate_summary` from `src/services/openai_service.py`.  `apiKey`
is the presence of `OPENAI_API_KEY`; `gen` is the chat-completion oracle
(the stripped response content for a dispatched prompt, `none` when the
call raises).  Missing credential or falsy transcript short-circuit. -/
def generate_summary (apiKey : Bool) (gen : String → Option String)
    (transcript style : String) (max_length : Int) (include_timestamps : Bool)
    (video_title channel_name : String) : Option String :=
  if apiKey = false then none
  else if transcript = "" then none
  else gen (dispatchedPrompt transcript style max_length include_timestamps
    video_title channel_name)

/-- The canonical video URL built by `generate_tweet`. -/
def video_url (video_id : String) : String := "https://youtu.be/" ++ video_id

/-- The attribution suffix built by `generate_tweet`. -/
def attribution (channel_name : String) : String := " - " ++ channel_name

/-- `available_length = max_length - len(video_url) - len(attribution) - 3`. -/
def available_length (max_length : Int) (video_id channel_name : String) : Int :=
  max_length - (video_url video_id).length - (attribution channel_name).length - 3

/-- `generate_tweet` from `src/services/openai_service.py`.  `gen` is the
stripped chat-completion content (`Except.error` when the call raises);
the second component counts dispatched completion calls.  The available
length is computed from the canonical video URL and the attribution
suffix; at most `available_length` characters of generated text survive,
and the URL and attribution are appended deterministically. -/
def generate_tweet (apiKey : Bool) (gen : Except Unit String)
    (summary video_title video_id channel_name : String) (max_length : Int) :
    Option String × Nat :=
  if apiKey = false then (none, 0)
  else
    if available_length max_length video_id channel_name ≤ 50 then (none, 0)
    else
      match gen with
      | .error _ => (none, 1)
      | .ok content =>
        let tweet_content :=
          if available_length max_length video_id channel_name < (content.length : Int) then
            strTake content (available_length max_length video_id channel_name - 3).toNat ++ "..."
          else content
        (some (tweet_content ++ " " ++ video_url video_id ++ attribution channel_name), 1)

/-- Errors raised by the transcript API
(`TranscriptsDisabled`, `NoTranscriptFound`, anything else). -/
inductive YTErr where
  | transcriptsDisabled : YTErr
  | noTranscriptFound : YTErr
  | otherError : YTErr

/-- One entry of fetched transcript data (`entry["text"]` and its position). -/
structure Segment where
  text : String
  start : Int

/-- The transcript-list object returned by `list_transcripts`: its
`find_transcript` method takes a list of language codes. -/
structure TranscriptList (α : Type) where
  find_transcript : List String → Except YTErr α

/-- Oracle for the `youtube_transcript_api` boundary, abstract in the
transcript-object type `α`. -/
structure YTApi (α : Type) where
  list_transcripts : String → Except YTErr (TranscriptList α)
  translate : α → String → Except YTErr α
  fetch : α → Except YTErr (List Segment)

/-- `get_video_transcript` from `src/services/youtube_service.py`: try
the preferred language, otherwise fall back to any available transcript
translated to it (any failure there returns `None`); fetch the selected
transcript's segments and join their text with single spaces; every
raised error is caught and becomes `None`. -/
def get_video_transcript {α : Type} (api : YTApi α) (video_id language_code : String) :
    Option String :=
  match api.list_transcripts video_id with
  | .error _ => none
  | .ok transcript_list =>
    let selected : Except Unit α :=
      match transcript_list.find_transcript [language_code] with
      | .ok t => .ok t
      | .error .noTranscriptFound =>
        match transcript_list.find_transcript [] with
        | .ok t =>
          match api.translate t language_code with
          | .ok t2 => .ok t2
          | .error _ => .error ()
        | .error _ => .error ()
      | .error _ => .error ()
    match selected with
    | .error _ => none
    | .ok transcript =>
      match api.fetch transcript with
      | .error _ => none
      | .ok transcript_data =>
        some (String.intercalate " " (transcript_data.map Segment.text))

/-- A global-settings dict carrying exactly the three required defaults. -/
def gsDefaults : PyDict :=
  [("default_summary_style", .str "concise"),
   ("default_summary_length", .num 500),
   ("default_include_timestamps", .bool true)]

/-- A concrete discovered video. -/
def vid1 : Video := { videoId := "vid1", title := "Title One", channelTitle := "Chan One" }

/-- A concrete channel dict as iterated by `main`. -/
def chanDict : PyDict := [("channel_id", .str "UCX"), ("name", .str "Chan One")]

/-- A channel configuration enabling only the Twitter sink. -/
def cfgTwitterOn : PyDict := [("post_to_twitter", .bool true)]

/-- Environment whose summarizer returns the empty string. -/
def envEmptySummary : PipeEnv :=
  { transcript := fun _ => some "hello transcript"
    summarize := fun _ _ _ _ _ _ => some ""
    post_to_twitter := fun _ _ _ _ => true
    mark_video_as_processed := fun _ _ _ => true
    get_channel_videos := fun _ _ _ => none
    published_after := "" }

/-- Environment whose summarizer returns the empty string and whose
processed-record write fails. -/
def envEmptySummaryMarkFalse : PipeEnv :=
  { envEmptySummary with mark_video_as_processed := fun _ _ _ => false }

/-- Environment with a working summarizer, a failing Twitter sink, and a
failing processed-record write. -/
def envSinkFails : PipeEnv :=
  { transcript := fun _ => some "hello transcript"
    summarize := fun _ _ _ _ _ _ => some "a summary"
    post_to_twitter := fun _ _ _ _ => false
    mark_video_as_processed := fun _ _ _ => false
    get_channel_videos := fun _ _ _ => none
    published_after := "" }

/-- Environment whose discovery always returns the single video `vid1`. -/
def envOneVideo : PipeEnv :=
  { transcript := fun _ => some "hello transcript"
    summarize := fun _ _ _ _ _ _ => some "a summary"
    post_to_twitter := fun _ _ _ _ => true
    mark_video_as_processed := fun _ _ _ => true
    get_channel_videos := fun _ _ _ => some [vid1]
    published_after := "" }

/-- A transcript API with no transcript in the preferred language, whose
fallback transcript translates and fetches successfully. -/
def apiFallback : YTApi Unit :=
  { list_transcripts := fun _ =>
      .ok { find_transcript := fun langs =>
        if langs.isEmpty then .ok () else .error .noTranscriptFound }
    translate := fun _ _ => .ok ()
    fetch := fun _ => .ok [{ text := "hello", start := 0 }, { text := "world", start := 5 }] }

/-- A 198-character channel name (drives the sink budget below the floor). -/
def longChannelName : String := String.mk (List.replicate 198 'c')

/-- A 16000-character transcript (pushes the composed prompt past the budget). -/
def longTranscript : String := String.mk (List.replicate 16000 'a')

lemma validate_default : validate_config default_config = .ok true := rfl

lemma load_config_resolve (s3Result fileResult : Option JValue) :
    load_config s3Result fileResult = resolve_amended s3Result fileResult := by
  unfold load_config resolve_amended firstTruthyCandidate
  cases s3Result with
  | some v =>
    by_cases hv : truthy v
    · simp [hv]
    · cases fileResult with
      | some w =>
        by_cases hw : truthy w
        · simp [hv, hw]
        · simp [hv, hw]
      | none => simp [hv]
  | none =>
    cases fileResult with
    | some w =>
      by_cases hw : truthy w
      · simp [hw]
      · simp [hw]
    | none => rfl

/-- C1 (amended): `load_config` validates only the first truthy candidate
in the order remote, local — a falsy remote result (absent, unreadable,
or invalid JSON) falls through to the local file, but a truthy remote
candidate that fails validation is replaced directly by the built-in
default, without the local file being consulted. -/
theorem load_config_eq_resolve_amended (s3Result fileResult : Option JValue) :
    load_config s3Result fileResult = resolve_amended s3Result fileResult :=
  load_config_resolve s3Result fileResult

/-- C1 (counterexample): a remote candidate that parses as truthy JSON but
fails validation does not lead to the (valid) local file being used — the
built-in default (one channel) is returned instead of the two-channel
local configuration. -/
theorem load_config_skips_local_on_invalid_remote :
    load_config (some badRemote) (some goodLocal) = .ok default_config ∧
    truthy badRemote = true ∧
    validate_config badRemote = .ok false ∧
    validate_config goodLocal = .ok true ∧
    channelCount default_config = 1 ∧
    channelCount goodLocal = 2 :=
  ⟨rfl, rfl, rfl, rfl, rfl, rfl⟩

/-- C8 (amended): every configuration `load_config` returns passes
`validate_config` (non-empty channel list, each channel a dict carrying
the `channel_id` and `name` keys — their values may be empty strings —
and the three required global defaults present); an invalid or absent
candidate is never returned, the hardcoded default taking its place. -/
theorem load_config_validates (s3Result fileResult : Option JValue) (c : JValue)
    (h : load_config s3Result fileResult = .ok c) :
    validate_config c = .ok true := by
  rw [load_config_resolve] at h
  unfold resolve_amended at h
  cases hc : firstTruthyCandidate s3Result fileResult with
  | none =>
    rw [hc] at h
    cases h
    exact validate_default
  | some v =>
    rw [hc] at h
    have h' : (match validate_config v with
        | Except.error e => Except.error e
        | Except.ok true => Except.ok v
        | Except.ok false => Except.ok default_config) = Except.ok c := h
    cases hval : validate_config v with
    | error e => rw [hval] at h'; exact Except.noConfusion h'
    | ok b =>
      rw [hval] at h'
      cases b with
      | true => cases h'; exact hval
      | false => cases h'; exact validate_default

/-- C8 (witness): instantiated with both loaders failing, the returned
default configuration validates. -/
theorem load_config_validates_witness : validate_config default_config = .ok true :=
  load_config_validates none none default_config rfl

/-- C8 (counterexample): a candidate whose only channel has empty-string
`channel_id` and `name` passes validation and is returned unchanged, so
the returned configuration does not satisfy the claimed non-emptiness of
every source identifier and name. -/
theorem load_config_accepts_empty_identifier :
    load_config (some emptyIdConfig) none = .ok emptyIdConfig ∧
    firstChannelId emptyIdConfig = some "" :=
  ⟨rfl, rfl⟩

lemma runVideos_all_processed (env : PipeEnv) (channel_config gs : PyDict)
    (processed : List String) (videos : List Video)
    (h : ∀ v ∈ videos, processed.contains v.videoId = true) :
    runVideos env channel_config gs processed videos = (.ok (), []) := by
  induction videos with
  | nil => rfl
  | cons v vs ih =>
    have hv := h v (List.mem_cons_self v vs)
    simp only [runVideos, hv, if_true]
    exact ih (fun w hw => h w (List.mem_cons_of_mem v hw))

lemma runChannels_all_processed (env : PipeEnv) (gs : PyDict) (processed : List String)
    (channels : List PyDict)
    (h : ∀ cid mr pa videos, env.get_channel_videos cid mr pa = some videos →
      ∀ v ∈ videos, processed.contains v.videoId = true) :
    (runChannels env gs processed channels).2 = [] := by
  induction channels with
  | nil => rfl
  | cons channel rest ih =>
    cases hcid : dictIndex channel "channel_id" with
    | none => simp [runChannels, hcid]
    | some channel_id =>
      cases hname : dictIndex channel "name" with
      | none => simp [runChannels, hcid, hname]
      | some nm =>
        cases hd : env.get_channel_videos channel_id
            (pyGet gs "max_videos_per_channel" (.num 3)) env.published_after with
        | none => simp [runChannels, hcid, hname, hd, ih]
        | some videos =>
          by_cases he : videos.isEmpty
          · simp [runChannels, hcid, hname, hd, he, ih]
          · have hrv := runVideos_all_processed env channel gs processed videos
              (h channel_id (pyGet gs "max_videos_per_channel" (.num 3)) env.published_after
                videos hd)
            simp [runChannels, hcid, hname, hd, he, hrv, ih]

/-- C2: when the processed-id set already contains the identifier of every
item any discovery call can return, a run makes zero summarization calls
and zero processed-record writes — each item is skipped before any
per-item work. -/
theorem mainRun_idempotent (env : PipeEnv) (channels : List PyDict) (gs : PyDict)
    (processed : List String)
    (h : ∀ cid mr pa videos, env.get_channel_videos cid mr pa = some videos →
      ∀ v ∈ videos, processed.contains v.videoId = true) :
    countSummarize (mainRun env channels gs processed).2 = 0 ∧
    countMark (mainRun env channels gs processed).2 = 0 := by
  have h2 := runChannels_all_processed env gs processed channels h
  constructor <;> simp [mainRun, countSummarize, countMark, h2]

/-- C2 (witness): one channel discovering exactly one video whose id is
already recorded produces no summarization call and no record write. -/
theorem mainRun_idempotent_witness :
    countSummarize (mainRun envOneVideo [chanDict] gsDefaults ["vid1"]).2 = 0 ∧
    countMark (mainRun envOneVideo [chanDict] gsDefaults ["vid1"]).2 = 0 :=
  mainRun_idempotent envOneVideo [chanDict] gsDefaults ["vid1"] (by
    intro cid mr pa videos hv v hvm
    have hv' : some [vid1] = some videos := hv
    cases hv'
    simp only [List.mem_singleton] at hvm
    subst hvm
    rfl)

/-- C3 (counterexample): a summarization that returns the non-null empty
string yields zero processed-record writes — `process_video` treats the
falsy summary as a failure, so "non-null summary implies exactly one
record write" fails at this input. -/
theorem process_video_nonnull_empty_summary_unrecorded :
    envEmptySummary.summarize "hello transcript" (.str "concise") (.num 500) (.bool true)
      "Title One" "Chan One" = some "" ∧
    countSummarize (process_video envEmptySummary vid1 [] gsDefaults).2 = 1 ∧
    countMark (process_video envEmptySummary vid1 [] gsDefaults).2 = 0 :=
  ⟨rfl, rfl, rfl⟩

/-- C3 (amended): for every item whose summarization returns a non-null,
non-empty summary, exactly one processed-record write is performed, with
that item's id, channel title and summary — whatever the enabled sinks'
publish outcomes are (the sink results only enter the effect log). -/
theorem process_video_records_once (env : PipeEnv) (video : Video)
    (channel_config gs : PyDict) (t s : String) (ds dl dt : JValue)
    (ht : env.transcript video.videoId = some t) (htne : t ≠ "")
    (hds : dictIndex gs "default_summary_style" = some ds)
    (hdl : dictIndex gs "default_summary_length" = some dl)
    (hdt : dictIndex gs "default_include_timestamps" = some dt)
    (hs : env.summarize t (pyGet channel_config "summary_style" ds)
        (pyGet channel_config "summary_length" dl)
        (pyGet channel_config "include_timestamps" dt)
        video.title video.channelTitle = some s)
    (hsne : s ≠ "") :
    (process_video env video channel_config gs).2.filter isMarkEffect =
      [Effect.markCall video.videoId video.channelTitle s
        (env.mark_video_as_processed video.videoId video.channelTitle s)] ∧
    countMark (process_video env video channel_config gs).2 = 1 := by
  have hfilter : (process_video env video channel_config gs).2.filter isMarkEffect =
      [Effect.markCall video.videoId video.channelTitle s
        (env.mark_video_as_processed video.videoId video.channelTitle s)] := by
    by_cases h1 : truthy (pyGet channel_config "post_to_twitter" (.bool false)) <;>
      by_cases h2 : truthy (pyGet channel_config "post_to_blog" (.bool false)) <;>
      simp [process_video, ht, htne, hds, hdl, hdt, hs, hsne, h1, h2, isMarkEffect]
  refine ⟨hfilter, ?_⟩
  rw [countMark, hfilter]
  rfl

/-- C3 (witness): a successfully summarized item whose only enabled sink
(Twitter) fails to publish still gets exactly one record write. -/
theorem process_video_records_once_witness :
    (process_video envSinkFails vid1 cfgTwitterOn gsDefaults).2.filter isMarkEffect =
      [Effect.markCall "vid1" "Chan One" "a summary" false] ∧
    countMark (process_video envSinkFails vid1 cfgTwitterOn gsDefaults).2 = 1 :=
  process_video_records_once envSinkFails vid1 cfgTwitterOn gsDefaults
    "hello transcript" "a summary" (.str "concise") (.num 500) (.bool true)
    rfl (by decide) rfl rfl rfl rfl (by decide)

/-- C9 (counterexample): a transcript and a summarization result that are
both non-null (the summary being the empty string) do not make
`process_video` return `True` — it returns `False`, so the claim's
"non-null" hypotheses are not enough. -/
theorem process_video_false_despite_nonnull :
    envEmptySummaryMarkFalse.transcript "vid1" = some "hello transcript" ∧
    envEmptySummaryMarkFalse.summarize "hello transcript" (.str "concise") (.num 500)
      (.bool true) "Title One" "Chan One" = some "" ∧
    (process_video envEmptySummaryMarkFalse vid1 [] gsDefaults).1 = .ok false :=
  ⟨rfl, rfl, rfl⟩

/-- C9 (amended): whenever the transcript and the summary are non-null
and non-empty, `process_video` returns `True` even when the
processed-record write reports failure — the write's boolean result is
discarded. -/
theorem process_video_ignores_mark_result (env : PipeEnv) (video : Video)
    (channel_config gs : PyDict) (t s : String) (ds dl dt : JValue)
    (ht : env.transcript video.videoId = some t) (htne : t ≠ "")
    (hds : dictIndex gs "default_summary_style" = some ds)
    (hdl : dictIndex gs "default_summary_length" = some dl)
    (hdt : dictIndex gs "default_include_timestamps" = some dt)
    (hs : env.summarize t (pyGet channel_config "summary_style" ds)
        (pyGet channel_config "summary_length" dl)
        (pyGet channel_config "include_timestamps" dt)
        video.title video.channelTitle = some s)
    (hsne : s ≠ "")
    (hmark : env.mark_video_as_processed video.videoId video.channelTitle s = false) :
    (process_video env video channel_config gs).1 = .ok true := by
  by_cases h1 : truthy (pyGet channel_config "post_to_twitter" (.bool false)) <;>
    by_cases h2 : truthy (pyGet channel_config "post_to_blog" (.bool false)) <;>
    simp [process_video, ht, htne, hds, hdl, hdt, hs, hsne, h1, h2]

/-- C9 (witness): with a failing store write and a failing Twitter sink,
a summarized item's `process_video` result is still `True`. -/
theorem process_video_ignores_mark_result_witness :
    (process_video envSinkFails vid1 cfgTwitterOn gsDefaults).1 = .ok true :=
  process_video_ignores_mark_result envSinkFails vid1 cfgTwitterOn gsDefaults
    "hello transcript" "a summary" (.str "concise") (.num 500) (.bool true)
    rfl (by decide) rfl rfl rfl rfl (by decide) rfl

lemma process_video_no_tweet (env : PipeEnv) (video : Video) (channel_config gs : PyDict)
    (h1 : truthy (pyGet channel_config "post_to_twitter" (.bool false)) = false) :
    countTweet (process_video env video channel_config gs).2 = 0 := by
  cases henvt : env.transcript video.videoId with
  | none => simp [process_video, henvt, countTweet]
  | some t =>
    by_cases ht : t = ""
    · simp [process_video, henvt, ht, countTweet]
    · cases hds : dictIndex gs "default_summary_style" with
      | none => simp [process_video, henvt, ht, hds, countTweet]
      | some ds =>
        cases hdl : dictIndex gs "default_summary_length" with
        | none => simp [process_video, henvt, ht, hds, hdl, countTweet]
        | some dl =>
          cases hdt : dictIndex gs "default_include_timestamps" with
          | none => simp [process_video, henvt, ht, hds, hdl, hdt, countTweet]
          | some dt =>
            cases hsum : env.summarize t (pyGet channel_config "summary_style" ds)
                (pyGet channel_config "summary_length" dl)
                (pyGet channel_config "include_timestamps" dt)
                video.title video.channelTitle with
            | none =>
              simp [process_video, henvt, ht, hds, hdl, hdt, hsum, countTweet,
                isTweetEffect]
            | some s =>
              by_cases hsm : s = ""
              · simp [process_video, henvt, ht, hds, hdl, hdt, hsum, hsm, countTweet,
                  isTweetEffect]
              · by_cases h2 : truthy (pyGet channel_config "post_to_blog" (.bool false)) <;>
                  simp [process_video, henvt, ht, hds, hdl, hdt, hsum, hsm, h1, h2,
                    countTweet, isTweetEffect]

lemma process_video_no_blog (env : PipeEnv) (video : Video) (channel_config gs : PyDict)
    (h2 : truthy (pyGet channel_config "post_to_blog" (.bool false)) = false) :
    countBlog (process_video env video channel_config gs).2 = 0 := by
  cases henvt : env.transcript video.videoId with
  | none => simp [process_video, henvt, countBlog]
  | some t =>
    by_cases ht : t = ""
    · simp [process_video, henvt, ht, countBlog]
    · cases hds : dictIndex gs "default_summary_style" with
      | none => simp [process_video, henvt, ht, hds, countBlog]
      | some ds =>
        cases hdl : dictIndex gs "default_summary_length" with
        | none => simp [process_video, henvt, ht, hds, hdl, countBlog]
        | some dl =>
          cases hdt : dictIndex gs "default_include_timestamps" with
          | none => simp [process_video, henvt, ht, hds, hdl, hdt, countBlog]
          | some dt =>
            cases hsum : env.summarize t (pyGet channel_config "summary_style" ds)
                (pyGet channel_config "summary_length" dl)
                (pyGet channel_config "include_timestamps" dt)
                video.title video.channelTitle with
            | none =>
              simp [process_video, henvt, ht, hds, hdl, hdt, hsum, countBlog,
                isBlogEffect]
            | some s =>
              by_cases hsm : s = ""
              · simp [process_video, henvt, ht, hds, hdl, hdt, hsum, hsm, countBlog,
                  isBlogEffect]
              · by_cases h1 : truthy (pyGet channel_config "post_to_twitter" (.bool false)) <;>
                  simp [process_video, henvt, ht, hds, hdl, hdt, hsum, hsm, h1, h2,
                    countBlog, isBlogEffect]

/-- C10: each per-sink enable flag works independently: when
`post_to_twitter` is absent from the channel configuration,
`channel_config.get("post_to_twitter", False)` yields `False` and no
Twitter publish attempt happens on any path through `process_video` —
whatever the blog flag says; and symmetrically, when `post_to_blog` is
absent no blog publish happens, whatever the Twitter flag says. -/
theorem absent_sink_flags_no_publish (env : PipeEnv) (video : Video)
    (channel_config gs : PyDict) :
    (dictIndex channel_config "post_to_twitter" = none →
      countTweet (process_video env video channel_config gs).2 = 0) ∧
    (dictIndex channel_config "post_to_blog" = none →
      countBlog (process_video env video channel_config gs).2 = 0) :=
  ⟨fun htw => process_video_no_tweet env video channel_config gs
      (by simp [pyGet, htw, truthy]),
   fun hbl => process_video_no_blog env video channel_config gs
      (by simp [pyGet, hbl, truthy])⟩

/-- C10 (witness): with `post_to_twitter` absent but `post_to_blog`
enabled there is no Twitter publish attempt, and with `post_to_blog`
absent but `post_to_twitter` enabled there is no blog publish attempt. -/
theorem absent_sink_flags_no_publish_witness :
    countTweet (process_video envOneVideo vid1
      [("post_to_blog", JValue.bool true)] gsDefaults).2 = 0 ∧
    countBlog (process_video envOneVideo vid1
      [("post_to_twitter", JValue.bool true)] gsDefaults).2 = 0 :=
  ⟨(absent_sink_flags_no_publish envOneVideo vid1
      [("post_to_blog", JValue.bool true)] gsDefaults).1 rfl,
   (absent_sink_flags_no_publish envOneVideo vid1
      [("post_to_twitter", JValue.bool true)] gsDefaults).2 rfl⟩

lemma strTake_length (s : String) (n : Nat) : (strTake s n).length = min n s.length :=
  List.length_take n s.data

lemma strLen_append (s t : String) : (s ++ t).length = s.length + t.length :=
  String.length_append s t

/-- C4: whenever `generate_tweet` with a 280-character budget returns a
payload, that payload is at most 280 characters; a generated body longer
than `available_length` is hard-truncated to `available_length - 3`
characters with a trailing ellipsis, and the payload is always the body,
one space, the canonical URL and the attribution suffix. -/
theorem generate_tweet_fits_budget (gen : Except Unit String)
    (summary video_title video_id channel_name payload : String) (n : Nat)
    (h : generate_tweet true gen summary video_title video_id channel_name 280 =
      (some payload, n)) :
    payload.length ≤ 280 ∧
    ∃ content, gen = .ok content ∧
      (available_length 280 video_id channel_name < (content.length : Int) →
        payload = (strTake content (available_length 280 video_id channel_name - 3).toNat
          ++ "...") ++ " " ++ video_url video_id ++ attribution channel_name) ∧
      ((content.length : Int) ≤ available_length 280 video_id channel_name →
        payload = content ++ " " ++ video_url video_id ++ attribution channel_name) := by
  unfold generate_tweet at h
  rw [if_neg (by simp)] at h
  by_cases hfloor : available_length 280 video_id channel_name ≤ 50
  · rw [if_pos hfloor] at h
    exact absurd h (by simp)
  · rw [if_neg hfloor] at h
    cases gen with
    | error e => simp at h
    | ok content =>
      simp only [Prod.mk.injEq] at h
      obtain ⟨hp, hn⟩ := h
      rw [Option.some_inj] at hp
      have hA : available_length 280 video_id channel_name =
          280 - ((video_url video_id).length : Int) -
            ((attribution channel_name).length : Int) - 3 := rfl
      constructor
      · by_cases htr : available_length 280 video_id channel_name < (content.length : Int)
        · rw [if_pos htr] at hp
          subst hp
          have hmin := strTake_length content
            (available_length 280 video_id channel_name - 3).toNat
          rw [hA] at htr hfloor
          simp only [strLen_append, hmin]
          have h3 : ("..." : String).length = 3 := rfl
          have h1 : (" " : String).length = 1 := rfl
          rw [h3, h1]
          omega
        · rw [if_neg htr] at hp
          subst hp
          rw [hA] at htr hfloor
          simp only [strLen_append]
          have h1 : (" " : String).length = 1 := rfl
          rw [h1]
          omega
      · exact ⟨content, rfl,
          fun htr => by rw [if_pos htr] at hp; exact hp.symm,
          fun hle => by rw [if_neg (not_lt.mpr hle)] at hp; exact hp.symm⟩

/-- C4 (witness): a short generated body stays untruncated and the
payload fits the 280-character budget. -/
theorem generate_tweet_fits_budget_witness :
    generate_tweet true (.ok "Great video") "s" "Title" "abc" "Chan" 280 =
      (some "Great video https://youtu.be/abc - Chan", 1) ∧
    ("Great video https://youtu.be/abc - Chan" : String).length ≤ 280 :=
  ⟨rfl, (generate_tweet_fits_budget (.ok "Great video") "s" "Title" "abc" "Chan"
    "Great video https://youtu.be/abc - Chan" 1 rfl).1⟩

/-- C5: `generate_tweet` computes
`available_length = max_length - len(video_url) - len(" - " + channel_name) - 3`
and, whenever this is at most 50, returns `None` with zero completion
calls dispatched. -/
theorem generate_tweet_budget_floor (apiKey : Bool) (gen : Except Unit String)
    (summary video_title video_id channel_name : String) (max_length : Int)
    (h : available_length max_length video_id channel_name ≤ 50) :
    available_length max_length video_id channel_name =
      max_length - ((("https://youtu.be/" ++ video_id) : String).length : Int) -
        (((" - " ++ channel_name) : String).length : Int) - 3 ∧
    generate_tweet apiKey gen summary video_title video_id channel_name max_length =
      (none, 0) := by
  refine ⟨rfl, ?_⟩
  cases apiKey with
  | false => rfl
  | true =>
    unfold generate_tweet
    rw [if_neg (by simp), if_pos h]

set_option maxRecDepth 8192 in
/-- C5 (witness): with an 11-character id and a 198-character channel
name, `available_length = 280 - 28 - 201 - 3 = 48 ≤ 50` and the call
returns `None` without dispatching a completion. -/
theorem generate_tweet_budget_floor_witness :
    generate_tweet true (.ok "x") "s" "Title" "abcdefghijk" longChannelName 280 =
      (none, 0) :=
  (generate_tweet_budget_floor true (.ok "x") "s" "Title" "abcdefghijk" longChannelName
    280 (by decide)).2

lemma composePrompt_length (transcript style : String) (max_length : Int)
    (include_timestamps : Bool) (video_title channel_name : String) :
    (composePrompt transcript style max_length include_timestamps
        video_title channel_name).length =
      (composePrompt "" style max_length include_timestamps
        video_title channel_name).length + transcript.length := by
  have h0 : ("" : String).length = 0 := rfl
  simp only [composePrompt, strLen_append, h0]
  omega

/-- C6: when the composed summarization prompt exceeds the fixed
16000-character budget, the prompt dispatched by `generate_summary` is
exactly the first 16000 characters of the composed prompt with the
truncation marker appended (so its length is 16000 plus the marker's);
otherwise the composed prompt is dispatched unchanged. -/
theorem generate_summary_prompt_truncation (transcript style : String) (max_length : Int)
    (include_timestamps : Bool) (video_title channel_name : String) :
    (max_prompt_length < (composePrompt transcript style max_length include_timestamps
        video_title channel_name).length →
      dispatchedPrompt transcript style max_length include_timestamps
          video_title channel_name =
        strTake (composePrompt transcript style max_length include_timestamps
          video_title channel_name) max_prompt_length ++ truncationMarker ∧
      (dispatchedPrompt transcript style max_length include_timestamps
          video_title channel_name).length =
        max_prompt_length + truncationMarker.length) ∧
    ((composePrompt transcript style max_length include_timestamps
        video_title channel_name).length ≤ max_prompt_length →
      dispatchedPrompt transcript style max_length include_timestamps
          video_title channel_name =
        composePrompt transcript style max_length include_timestamps
          video_title channel_name) ∧
    (∀ gen, transcript ≠ "" →
      generate_summary true gen transcript style max_length include_timestamps
          video_title channel_name =
        gen (dispatchedPrompt transcript style max_length include_timestamps
          video_title channel_name)) := by
  refine ⟨fun hgt => ?_, fun hle => ?_, fun gen htne => ?_⟩
  · constructor
    · simp only [dispatchedPrompt]
      rw [if_pos hgt]
    · simp only [dispatchedPrompt]
      rw [if_pos hgt, strLen_append, strTake_length, min_eq_left (le_of_lt hgt)]
  · simp only [dispatchedPrompt]
    rw [if_neg (not_lt.mpr hle)]
  · unfold generate_summary
    rw [if_neg (by simp), if_neg htne]

set_option maxRecDepth 8192 in
/-- C6 (witness): a 16000-character transcript pushes the composed prompt
past the budget and the dispatched prompt has exactly the budget length
plus the marker length. -/
theorem generate_summary_prompt_truncation_witness :
    (dispatchedPrompt longTranscript "concise" 500 true "" "").length =
      max_prompt_length + truncationMarker.length := by
  have hx : longTranscript.length = 16000 := List.length_replicate 16000 'a'
  have hpos : 0 < (composePrompt "" "concise" 500 true "" "").length := by decide
  have hlen := composePrompt_length longTranscript "concise" 500 true "" ""
  have hgt : max_prompt_length <
      (composePrompt longTranscript "concise" 500 true "" "").length := by
    rw [hlen, hx]
    unfold max_prompt_length
    omega
  exact ((generate_summary_prompt_truncation longTranscript "concise" 500 true "" "").1
    hgt).2

/-- C7: `get_video_transcript` first tries a transcript already in the
preferred language; when none is found it selects an available transcript
and translates it, returning `None` when translation fails; on success it
returns the fetched segments' text joined in order with single spaces;
and any listing error (transcripts disabled, none at all, or an
unexpected failure) yields `None` — the function is total and never
raises. -/
theorem get_video_transcript_spec {α : Type} (api : YTApi α)
    (video_id language_code : String) :
    (∀ e, api.list_transcripts video_id = .error e →
      get_video_transcript api video_id language_code = none) ∧
    (∀ tl t segs, api.list_transcripts video_id = .ok tl →
      tl.find_transcript [language_code] = .ok t →
      api.fetch t = .ok segs →
      get_video_transcript api video_id language_code =
        some (String.intercalate " " (segs.map Segment.text))) ∧
    (∀ tl t t2 segs, api.list_transcripts video_id = .ok tl →
      tl.find_transcript [language_code] = .error .noTranscriptFound →
      tl.find_transcript [] = .ok t →
      api.translate t language_code = .ok t2 →
      api.fetch t2 = .ok segs →
      get_video_transcript api video_id language_code =
        some (String.intercalate " " (segs.map Segment.text))) ∧
    (∀ tl t e, api.list_transcripts video_id = .ok tl →
      tl.find_transcript [language_code] = .error .noTranscriptFound →
      tl.find_transcript [] = .ok t →
      api.translate t language_code = .error e →
      get_video_transcript api video_id language_code = none) ∧
    (∀ tl t e, api.list_transcripts video_id = .ok tl →
      tl.find_transcript [language_code] = .ok t →
      api.fetch t = .error e →
      get_video_transcript api video_id language_code = none) := by
  refine ⟨?_, ?_, ?_, ?_, ?_⟩
  · intro e h
    simp [get_video_transcript, h]
  · intro tl t segs h1 h2 h3
    simp [get_video_transcript, h1, h2, h3]
  · intro tl t t2 segs h1 h2 h3 h4 h5
    simp [get_video_transcript, h1, h2, h3, h4, h5]
  · intro tl t e h1 h2 h3 h4
    simp [get_video_transcript, h1, h2, h3, h4]
  · intro tl t e h1 h2 h3
    simp [get_video_transcript, h1, h2, h3]

/-- C7 (witness): an API with no transcript in the preferred language
whose fallback transcript translates and fetches successfully yields the
space-joined segment text. -/
theorem get_video_transcript_spec_witness :
    get_video_transcript apiFallback "vid" "en" = some "hello world" :=
  (get_video_transcript_spec apiFallback "vid" "en").2.2.1
    { find_transcript := fun langs =>
        if langs.isEmpty then .ok () else .error .noTranscriptFound }
    () () [{ text := "hello", start := 0 }, { text := "world", start := 5 }]
    rfl rfl rfl rfl rfl
